import Mathlib

/-!
Verification development for the X11 driver window management core
(dlls/x11drv/window.c): a shallow embedding of its pure decision logic
(decoration policy, coordinate translation, geometry diffing, hint
construction, icon representation, teardown/creation sequencing) together
with theorems about that logic.

Machine integers: the C code manipulates 32-bit style masks only through
bitwise tests against fixed constants, none of which overflow; styles are
embedded as `Nat` bitmasks and rectangle coordinates as `Int`.
Bit-flag words that are written back field-by-field by the code
(`XWMHints.flags`, `XSizeHints.flags`) are embedded as one `Bool` per
named flag bit; bit-flag words that are only accumulated and returned
(`XWindowChanges` masks) are embedded as `Nat`.
-/

namespace X11drv

/-! ## Style bit constants (winuser.h / Wine extensions) -/

def WS_POPUP : Nat := 0x80000000
def WS_CHILD : Nat := 0x40000000
def WS_MINIMIZE : Nat := 0x20000000
def WS_VISIBLE : Nat := 0x10000000
def WS_MAXIMIZE : Nat := 0x01000000
def WS_CAPTION : Nat := 0x00C00000
def WS_BORDER : Nat := 0x00800000
def WS_DLGFRAME : Nat := 0x00400000
def WS_VSCROLL : Nat := 0x00200000
def WS_HSCROLL : Nat := 0x00100000
def WS_SYSMENU : Nat := 0x00080000
def WS_THICKFRAME : Nat := 0x00040000

def WS_EX_DLGMODALFRAME : Nat := 0x00000001
def WS_EX_TOOLWINDOW : Nat := 0x00000080
def WS_EX_MANAGED : Nat := 0x40000000
def WS_EX_TRAYWINDOW : Nat := 0x80000000

/-! ## Rectangles -/

structure RECT where
  left : Int
  top : Int
  right : Int
  bottom : Int
deriving Repr, DecidableEq

/-- IsRectEmpty: a rectangle is empty when `left >= right` or `top >= bottom`. -/
def IsRectEmpty (r : RECT) : Bool :=
  decide (r.left ≥ r.right) || decide (r.top ≥ r.bottom)

/-- OffsetRect: translate a rectangle by `(dx, dy)`. -/
def OffsetRect (r : RECT) (dx dy : Int) : RECT :=
  ⟨r.left + dx, r.top + dy, r.right + dx, r.bottom + dy⟩

/-! ## Decoration Policy Classifier -/

/-- is_window_managed: decide whether a window should be handed to the
external window manager, from the process-wide `managed_mode` flag and
the style and extended-style masks of the window. -/
def is_window_managed (managed_mode : Bool) (dwStyle dwExStyle : Nat) : Bool :=
  if !managed_mode then false
  else if dwExStyle &&& WS_EX_TRAYWINDOW ≠ 0 then true
  else if dwStyle &&& WS_CHILD ≠ 0 then false
  else if dwExStyle &&& WS_EX_TOOLWINDOW ≠ 0 then false
  else if dwStyle &&& WS_CAPTION = WS_CAPTION then true
  else if dwStyle &&& WS_THICKFRAME ≠ 0 then true
  else false

/-- The WS_EX_MANAGED write-back performed by get_window_attributes:
the managed bit is set when the window is top-level and classified as
managed, and cleared otherwise. -/
def update_managed_exstyle (managed_mode is_top_level : Bool) (dwStyle dwExStyle : Nat) : Nat :=
  if is_top_level && is_window_managed managed_mode dwStyle dwExStyle then
    dwExStyle ||| WS_EX_MANAGED
  else
    dwExStyle - (dwExStyle &&& WS_EX_MANAGED)

/-- C1. As stated: a window with WS_CHILD or WS_EX_TOOLWINDOW would never be
managed even with WS_EX_TRAYWINDOW set. False: the tray-window check comes
first in is_window_managed, so a child window carrying WS_EX_TRAYWINDOW is
classified as managed. -/
theorem tray_child_window_is_managed :
    WS_CHILD &&& WS_CHILD ≠ 0 ∧
    is_window_managed true WS_CHILD WS_EX_TRAYWINDOW = true := by
  constructor
  · decide
  · decide

/-- C1 (amended). For every window whose extended style has WS_EX_TRAYWINDOW
clear, if WS_CHILD is set in the style or WS_EX_TOOLWINDOW is set in the
extended style then is_window_managed returns not-managed, regardless of any
other style or extended-style bits (including WS_CAPTION and WS_THICKFRAME)
and of the managed mode. -/
theorem child_tool_unmanaged_without_tray (managed_mode : Bool) (dwStyle dwExStyle : Nat)
    (htray : dwExStyle &&& WS_EX_TRAYWINDOW = 0)
    (h : dwStyle &&& WS_CHILD ≠ 0 ∨ dwExStyle &&& WS_EX_TOOLWINDOW ≠ 0) :
    is_window_managed managed_mode dwStyle dwExStyle = false := by
  unfold is_window_managed
  cases managed_mode with
  | false => simp
  | true =>
    simp only [Bool.not_true, Bool.false_eq_true, if_false, htray]
    rcases h with hc | ht
    · simp [hc]
    · by_cases hc : dwStyle &&& WS_CHILD ≠ 0
      · simp [hc]
      · simp [hc, ht]

/-- C1 (amended) witness: a child window with caption and thick frame, tool
extended style, tray flag clear, in managed mode, is classified unmanaged. -/
theorem child_tool_unmanaged_without_tray_witness :
    ((WS_EX_TOOLWINDOW &&& WS_EX_TRAYWINDOW = 0) ∧
      ((WS_CHILD ||| WS_CAPTION ||| WS_THICKFRAME) &&& WS_CHILD ≠ 0 ∨
        WS_EX_TOOLWINDOW &&& WS_EX_TOOLWINDOW ≠ 0)) ∧
    is_window_managed true (WS_CHILD ||| WS_CAPTION ||| WS_THICKFRAME) WS_EX_TOOLWINDOW = false :=
  ⟨⟨by decide, Or.inl (by decide)⟩,
    child_tool_unmanaged_without_tray true (WS_CHILD ||| WS_CAPTION ||| WS_THICKFRAME)
      WS_EX_TOOLWINDOW (by decide) (Or.inl (by decide))⟩

/-! ## Coordinate Translator -/

/-- Modelled from the spec: `AdjustWindowRectEx` is the external
non-client-area metrics calculator (out of scope for this core); applied to
the zero rectangle it yields the fixed decoration margins `adj` for the
styles of the window, and applied to any rectangle it offsets each edge by the
corresponding margin. Both translation directions below take those margins
as the parameter `adj`. -/
def adjustRectByMargins (adj r : RECT) : RECT :=
  ⟨r.left + adj.left, r.top + adj.top, r.right + adj.right, r.bottom + adj.bottom⟩

/-- X11DRV_window_to_X_rect: convert a rect from client to X window
coordinates. Identity for unmanaged windows and for empty rectangles;
otherwise subtract the decoration margins and nudge the far edge of any
degenerate result to restore a 1-unit span. -/
def X11DRV_window_to_X_rect (adj : RECT) (dwExStyle : Nat) (rect : RECT) : RECT :=
  if dwExStyle &&& WS_EX_MANAGED = 0 then rect
  else if IsRectEmpty rect then rect
  else
    let r : RECT := ⟨rect.left - adj.left, rect.top - adj.top,
                     rect.right - adj.right, rect.bottom - adj.bottom⟩
    let r := if r.top ≥ r.bottom then { r with bottom := r.top + 1 } else r
    let r := if r.left ≥ r.right then { r with right := r.left + 1 } else r
    r

/-- X11DRV_X_to_window_rect: opposite of X11DRV_window_to_X_rect. -/
def X11DRV_X_to_window_rect (adj : RECT) (dwExStyle : Nat) (rect : RECT) : RECT :=
  if dwExStyle &&& WS_EX_MANAGED = 0 then rect
  else if IsRectEmpty rect then rect
  else
    let r : RECT := adjustRectByMargins adj rect
    let r := if r.top ≥ r.bottom then { r with bottom := r.top + 1 } else r
    let r := if r.left ≥ r.right then { r with right := r.left + 1 } else r
    r

/-- C2. For every externally managed window (WS_EX_MANAGED set) and non-empty
content rectangle, translating to frame-inclusive X coordinates and back
reproduces the rectangle exactly, provided the translation did not trigger
the degenerate-rectangle clamping. -/
theorem window_rect_roundtrip (adj : RECT) (dwExStyle : Nat) (rect : RECT)
    (hmanaged : dwExStyle &&& WS_EX_MANAGED ≠ 0)
    (hne : IsRectEmpty rect = false)
    (hclampv : rect.top - adj.top < rect.bottom - adj.bottom)
    (hclamph : rect.left - adj.left < rect.right - adj.right) :
    X11DRV_X_to_window_rect adj dwExStyle (X11DRV_window_to_X_rect adj dwExStyle rect) = rect := by
  obtain ⟨l, t, r, b⟩ := rect
  obtain ⟨al, au, ar, ab⟩ := adj
  simp only [IsRectEmpty, Bool.or_eq_false_iff, decide_eq_false_iff_not, not_le] at hne
  obtain ⟨h1, h2⟩ := hne
  simp only at hclampv hclamph h1 h2
  have hfwd : X11DRV_window_to_X_rect ⟨al, au, ar, ab⟩ dwExStyle ⟨l, t, r, b⟩ =
      ⟨l - al, t - au, r - ar, b - ab⟩ := by
    have hempty1 : IsRectEmpty ⟨l, t, r, b⟩ = false := by
      simp only [IsRectEmpty, Bool.or_eq_false_iff, decide_eq_false_iff_not, not_le]
      omega
    have c1 : ¬(t - au ≥ b - ab) := by omega
    have c2 : ¬(l - al ≥ r - ar) := by omega
    simp [X11DRV_window_to_X_rect, hmanaged, hempty1, c1, c2]
  rw [hfwd]
  have hempty2 : IsRectEmpty ⟨l - al, t - au, r - ar, b - ab⟩ = false := by
    simp only [IsRectEmpty, Bool.or_eq_false_iff, decide_eq_false_iff_not, not_le]
    omega
  have c3 : ¬(t - au + au ≥ b - ab + ab) := by omega
  have c3' : ¬(t ≥ b) := by omega
  have c4 : ¬(l - al + al ≥ r - ar + ar) := by omega
  have c4' : ¬(l ≥ r) := by omega
  simp only [X11DRV_X_to_window_rect, hmanaged, hempty2, adjustRectByMargins]
  split_ifs <;> simp_all

/-- C2 witness: a managed dialog-sized rectangle with typical caption/border
margins round-trips exactly. -/
theorem window_rect_roundtrip_witness :
    (WS_EX_MANAGED &&& WS_EX_MANAGED ≠ 0 ∧
      IsRectEmpty ⟨10, 10, 210, 110⟩ = false ∧
      (10 : Int) - (-22) < 110 - 3 ∧ (10 : Int) - (-3) < 210 - 3) ∧
    X11DRV_X_to_window_rect ⟨-3, -22, 3, 3⟩ WS_EX_MANAGED
      (X11DRV_window_to_X_rect ⟨-3, -22, 3, 3⟩ WS_EX_MANAGED ⟨10, 10, 210, 110⟩) =
      ⟨10, 10, 210, 110⟩ :=
  ⟨⟨by decide, by decide, by decide, by decide⟩,
    window_rect_roundtrip ⟨-3, -22, 3, 3⟩ WS_EX_MANAGED ⟨10, 10, 210, 110⟩
      (by decide) (by decide) (by decide) (by decide)⟩

/-! ## Geometry Synchronizer: change-set computation -/

/-- ConfigureWindow value-mask bits (X.h). -/
def CWX : Nat := 1
def CWY : Nat := 2
def CWWidth : Nat := 4
def CWHeight : Nat := 8
def CWSibling : Nat := 32
def CWStackMode : Nat := 64

/-- XWindowChanges (the fields this core fills). -/
structure XWindowChanges where
  x : Int := 0
  y : Int := 0
  width : Int := 0
  height : Int := 0
  stack_mode : Nat := 0
  sibling : Nat := 0
deriving Repr, DecidableEq

/-- get_window_changes: diff an old against a new rectangle and fill the
window changes structure, returning the accumulated value mask. A computed
width or height of exactly zero is replaced by 1. -/
def get_window_changes (changes : XWindowChanges) (old rnew : RECT) : Nat × XWindowChanges :=
  let s1 : Nat × XWindowChanges :=
    if old.right - old.left ≠ rnew.right - rnew.left then
      (0 ||| CWWidth,
       { changes with
         width := if rnew.right - rnew.left = 0 then 1 else rnew.right - rnew.left })
    else (0, changes)
  let s2 : Nat × XWindowChanges :=
    if old.bottom - old.top ≠ rnew.bottom - rnew.top then
      (s1.1 ||| CWHeight,
       { s1.2 with
         height := if rnew.bottom - rnew.top = 0 then 1 else rnew.bottom - rnew.top })
    else s1
  let s3 : Nat × XWindowChanges :=
    if old.left ≠ rnew.left then (s2.1 ||| CWX, { s2.2 with x := rnew.left }) else s2
  let s4 : Nat × XWindowChanges :=
    if old.top ≠ rnew.top then (s3.1 ||| CWY, { s3.2 with y := rnew.top }) else s3
  s4

/-- C3. As stated: get_window_changes would clamp a zero-or-negative computed
width or height to 1, so every pushed size is at least 1. False: only an
exactly-zero size is clamped; a negative computed width is pushed unchanged.
Here old = (0,0,5,5), new = (0,0,-2,5): the widths differ, CWWidth is set,
and the pushed width is -2. -/
theorem negative_width_not_clamped :
    ((get_window_changes {} ⟨0, 0, 5, 5⟩ ⟨0, 0, -2, 5⟩).1 &&& CWWidth ≠ 0) ∧
    (get_window_changes {} ⟨0, 0, 5, 5⟩ ⟨0, 0, -2, 5⟩).2.width = -2 ∧
    ¬((get_window_changes {} ⟨0, 0, 5, 5⟩ ⟨0, 0, -2, 5⟩).2.width ≥ 1) := by
  refine ⟨by decide, by decide, by decide⟩

/-- C3 (amended). get_window_changes clamps a computed width or height of
exactly zero to 1 (negative values pass through unchanged); hence whenever
the new rectangle has nonnegative width and height, every width and height
it pushes (mask bit set) is at least 1 — in particular for rectangles of
width 0 or height 0, whose pushed dimension is exactly 1. -/
theorem zero_size_clamped_to_one (changes : XWindowChanges) (old rnew : RECT)
    (hw : 0 ≤ rnew.right - rnew.left) (hh : 0 ≤ rnew.bottom - rnew.top) :
    (((get_window_changes changes old rnew).1 &&& CWWidth ≠ 0 →
        1 ≤ (get_window_changes changes old rnew).2.width) ∧
      ((get_window_changes changes old rnew).1 &&& CWHeight ≠ 0 →
        1 ≤ (get_window_changes changes old rnew).2.height)) ∧
    ((rnew.right - rnew.left = 0 → old.right - old.left ≠ rnew.right - rnew.left →
        (get_window_changes changes old rnew).2.width = 1) ∧
      (rnew.bottom - rnew.top = 0 → old.bottom - old.top ≠ rnew.bottom - rnew.top →
        (get_window_changes changes old rnew).2.height = 1)) := by
  simp only [get_window_changes]
  split_ifs <;> simp_all +decide [CWWidth, CWHeight, CWX, CWY] <;> omega

/-- C3 (amended) witness: old = (0,0,5,5), new = (0,0,0,7): both dimensions
change, the zero width is pushed as 1 and the height as 7. -/
theorem zero_size_clamped_to_one_witness :
    ((0 : Int) ≤ 0 - 0 ∧ (0 : Int) ≤ 7 - 0) ∧
    (((get_window_changes {} ⟨0, 0, 5, 5⟩ ⟨0, 0, 0, 7⟩).1 &&& CWWidth ≠ 0 →
        1 ≤ (get_window_changes {} ⟨0, 0, 5, 5⟩ ⟨0, 0, 0, 7⟩).2.width) ∧
      ((get_window_changes {} ⟨0, 0, 5, 5⟩ ⟨0, 0, 0, 7⟩).1 &&& CWHeight ≠ 0 →
        1 ≤ (get_window_changes {} ⟨0, 0, 5, 5⟩ ⟨0, 0, 0, 7⟩).2.height)) ∧
    (((0 : Int) - 0 = 0 - 0 →
        (5 : Int) - 0 ≠ (0 : Int) - 0 →
        (get_window_changes {} ⟨0, 0, 5, 5⟩ ⟨0, 0, 0, 7⟩).2.width = 1) ∧
      ((7 : Int) - 0 = 0 →
        (5 : Int) - 0 ≠ (7 : Int) - 0 →
        (get_window_changes {} ⟨0, 0, 5, 5⟩ ⟨0, 0, 0, 7⟩).2.height = 1)) :=
  ⟨⟨by decide, by decide⟩,
    by
      have h := zero_size_clamped_to_one {} ⟨0, 0, 5, 5⟩ ⟨0, 0, 0, 7⟩ (by decide) (by decide)
      exact ⟨h.1, ⟨fun _ h2 => h.2.1 rfl h2, fun h1 _ => absurd h1 (by decide)⟩⟩⟩

/-! ## Geometry Synchronizer: z-order placement -/

/-- Stack modes (X.h). -/
def Above : Nat := 0
def Below : Nat := 1

/-- A sibling on the logical chain, as seen through GetWindowLongW(GWL_STYLE)
and X11DRV_get_whole_window: its style mask and its whole peer handle. -/
structure SibWin where
  style : Nat
  peer : Nat
deriving Repr, DecidableEq

/-- The backward walk of X11DRV_sync_whole_window_position: starting from the
GW_HWNDPREV chain (nearest predecessor first), skip every sibling whose
WS_VISIBLE bit is clear and return the first visible one, if any. -/
def find_prev_visible : List SibWin → Option SibWin
  | [] => none
  | p :: rest => if p.style &&& WS_VISIBLE ≠ 0 then some p else find_prev_visible rest

/-- The zorder branch of X11DRV_sync_whole_window_position: with no visible
predecessor request top-of-stack placement (Above); otherwise request
placement below the whole peer of the nearest visible predecessor. -/
def compute_zorder_changes (prevs : List SibWin) (changes : XWindowChanges) (mask : Nat) :
    XWindowChanges × Nat :=
  match find_prev_visible prevs with
  | none => ({ changes with stack_mode := Above }, mask ||| CWStackMode)
  | some p => ({ changes with stack_mode := Below, sibling := p.peer },
               mask ||| CWStackMode ||| CWSibling)

theorem find_prev_visible_append_invisible (pre rest : List SibWin)
    (h : ∀ t ∈ pre, t.style &&& WS_VISIBLE = 0) :
    find_prev_visible (pre ++ rest) = find_prev_visible rest := by
  induction pre with
  | nil => rfl
  | cons p ps ih =>
    have hp : p.style &&& WS_VISIBLE = 0 := h p (List.mem_cons_self p ps)
    simp only [List.cons_append, find_prev_visible, hp]
    simp only [ne_eq, not_true_eq_false, if_false, reduceIte]
    exact ih fun t ht => h t (List.mem_cons_of_mem p ht)

/-- C4. When whole-window sync computes a z-order placement it skips every
invisible predecessor on the backward sibling chain: if some predecessor is
visible, the placement is Below the peer of that nearest visible predecessor (with
CWStackMode and CWSibling added to the mask); if none is, the placement is
Above (top of stack, with CWStackMode added). In particular, for siblings
[A(visible), B(invisible), C] with C repositioned after B — backward chain
[B, A] — the computed placement for C is below the peer of A. -/
theorem zorder_skips_invisible_siblings :
    (∀ (pre post : List SibWin) (s : SibWin) (changes : XWindowChanges) (mask : Nat),
      (∀ t ∈ pre, t.style &&& WS_VISIBLE = 0) → s.style &&& WS_VISIBLE ≠ 0 →
      compute_zorder_changes (pre ++ s :: post) changes mask =
        ({ changes with stack_mode := Below, sibling := s.peer },
          mask ||| CWStackMode ||| CWSibling)) ∧
    (∀ (prevs : List SibWin) (changes : XWindowChanges) (mask : Nat),
      (∀ t ∈ prevs, t.style &&& WS_VISIBLE = 0) →
      compute_zorder_changes prevs changes mask =
        ({ changes with stack_mode := Above }, mask ||| CWStackMode)) ∧
    (∀ (styleB : Nat) (peerA peerB : Nat) (changes : XWindowChanges) (mask : Nat),
      styleB &&& WS_VISIBLE = 0 →
      compute_zorder_changes [⟨styleB, peerB⟩, ⟨WS_VISIBLE, peerA⟩] changes mask =
        ({ changes with stack_mode := Below, sibling := peerA },
          mask ||| CWStackMode ||| CWSibling)) := by
  refine ⟨?_, ?_, ?_⟩
  · intro pre post s changes mask hpre hs
    unfold compute_zorder_changes
    rw [find_prev_visible_append_invisible pre (s :: post) hpre]
    simp [find_prev_visible, hs]
  · intro prevs changes mask hprevs
    unfold compute_zorder_changes
    have h := find_prev_visible_append_invisible prevs [] hprevs
    rw [List.append_nil] at h
    rw [h]
    rfl
  · intro styleB peerA peerB changes mask hB
    unfold compute_zorder_changes
    simp only [WS_VISIBLE] at hB
    simp +decide [find_prev_visible, hB, WS_VISIBLE]

/-- C4 witness: chain [B(invisible, peer 7), A(visible, peer 5)]; the
placement computed for the repositioned window is Below with sibling 5. -/
theorem zorder_skips_invisible_siblings_witness :
    ((0 : Nat) &&& WS_VISIBLE = 0) ∧
    compute_zorder_changes [⟨0, 7⟩, ⟨WS_VISIBLE, 5⟩] {} 0 =
      ({ stack_mode := Below, sibling := 5 }, 0 ||| CWStackMode ||| CWSibling) :=
  ⟨by decide, (zorder_skips_invisible_siblings).2.2 0 5 7 {} 0 (by decide)⟩

/-! ## Peer window state and the Icon Surrogate Manager -/

/-- The per-window driver data fields this core owns (struct x11drv_win_data):
native handles are embedded as `Nat`, with 0 meaning "absent" exactly as the
code uses zero handles. -/
structure WinData where
  whole_window : Nat := 0
  client_window : Nat := 0
  icon_window : Nat := 0
  hWMIconBitmap : Nat := 0
  hWMIconMask : Nat := 0
deriving Repr, DecidableEq

/-- Observable native-side events of the teardown paths, in program order. -/
inductive DOp where
  | syncFlush
  | deleteCtxWhole
  | deleteCtxClient
  | destroyWhole
  | deleteCtxIcon
  | destroyIcon
  | removePropIcon
  | freeIconBitmap
  | freeIconMask
  | freeData
deriving Repr, DecidableEq

/-- destroy_icon_window: a no-op without a surrogate; otherwise remove the
registry entry, destroy the surrogate window, zero the handle and remove
the persisted icon-window property. -/
def destroy_icon_window (d : WinData) : WinData × List DOp :=
  if d.icon_window = 0 then (d, [])
  else ({ d with icon_window := 0 },
        [DOp.deleteCtxIcon, DOp.destroyIcon, DOp.removePropIcon])

/-- create_icon_window: allocate a small surrogate peer window and record it;
the handle the native layer hands back is the parameter `fresh`. -/
def create_icon_window (fresh : Nat) (d : WinData) : WinData :=
  { d with icon_window := fresh }

/-! ## Window-Manager Hints Builder: icon resolution -/

/-- XWMHints, with one Bool per flag bit of the flags word
(InputHint .. WindowGroupHint). -/
structure XWMHints where
  flag_InputHint : Bool := false
  flag_StateHint : Bool := false
  flag_IconPixmapHint : Bool := false
  flag_IconWindowHint : Bool := false
  flag_IconPositionHint : Bool := false
  flag_IconMaskHint : Bool := false
  flag_WindowGroupHint : Bool := false
  icon_window : Nat := 0
  icon_pixmap : Nat := 0
  icon_mask : Nat := 0
deriving Repr, DecidableEq

/-- set_icon_hints: free any previously owned icon bitmaps, then resolve the
icon representation. Unmanaged: destroy any surrogate and clear all three
icon flags. Managed without a class icon: lazily create the surrogate and
advertise the icon-window representation. Managed with a class icon
(hIcon ≠ 0): take ownership of the color/mask bitmaps of the icon (hbmColor,
hbmMask, obtained from GetIconInfo), convert them to pixmaps (pixColor,
pixMask, via X11DRV_BITMAP_Pixmap), destroy any surrogate and advertise the
pixmap+mask representation. -/
def set_icon_hints (fresh hbmColor hbmMask pixColor pixMask : Nat)
    (dwExStyle : Nat) (hIcon : Nat) (d : WinData) (hints : XWMHints) :
    WinData × XWMHints :=
  let d := { d with hWMIconBitmap := 0, hWMIconMask := 0 }
  if dwExStyle &&& WS_EX_MANAGED = 0 then
    let d := (destroy_icon_window d).1
    (d, { hints with flag_IconPixmapHint := false, flag_IconMaskHint := false,
                     flag_IconWindowHint := false })
  else if hIcon = 0 then
    let d := if d.icon_window = 0 then create_icon_window fresh d else d
    (d, { hints with icon_window := d.icon_window,
                     flag_IconPixmapHint := false, flag_IconMaskHint := false,
                     flag_IconWindowHint := true })
  else
    let d := { d with hWMIconBitmap := hbmColor, hWMIconMask := hbmMask }
    let hints := { hints with icon_pixmap := pixColor, icon_mask := pixMask }
    let d := (destroy_icon_window d).1
    (d, { hints with flag_IconWindowHint := false,
                     flag_IconPixmapHint := true, flag_IconMaskHint := true })

/-- C5. After every run of set_icon_hints exactly one of the three icon
representations is advertised: unmanaged windows get none of the three flags
and no surrogate; managed windows without a class icon get the icon-window
flag alone with a (lazily created) surrogate; managed windows with a class
icon get the pixmap+mask flags alone and any surrogate is destroyed — in
particular setting a class icon on a window that previously had a surrogate
destroys the surrogate and advertises exactly pixmap+mask. -/
theorem icon_hints_exactly_one_representation
    (fresh hbmColor hbmMask pixColor pixMask dwExStyle hIcon : Nat)
    (d : WinData) (hints : XWMHints) (hfresh : fresh ≠ 0) :
    (dwExStyle &&& WS_EX_MANAGED = 0 →
      (set_icon_hints fresh hbmColor hbmMask pixColor pixMask dwExStyle hIcon d hints).2.flag_IconWindowHint = false ∧
      (set_icon_hints fresh hbmColor hbmMask pixColor pixMask dwExStyle hIcon d hints).2.flag_IconPixmapHint = false ∧
      (set_icon_hints fresh hbmColor hbmMask pixColor pixMask dwExStyle hIcon d hints).2.flag_IconMaskHint = false ∧
      (set_icon_hints fresh hbmColor hbmMask pixColor pixMask dwExStyle hIcon d hints).1.icon_window = 0) ∧
    (dwExStyle &&& WS_EX_MANAGED ≠ 0 → hIcon = 0 →
      (set_icon_hints fresh hbmColor hbmMask pixColor pixMask dwExStyle hIcon d hints).2.flag_IconWindowHint = true ∧
      (set_icon_hints fresh hbmColor hbmMask pixColor pixMask dwExStyle hIcon d hints).2.flag_IconPixmapHint = false ∧
      (set_icon_hints fresh hbmColor hbmMask pixColor pixMask dwExStyle hIcon d hints).2.flag_IconMaskHint = false ∧
      (set_icon_hints fresh hbmColor hbmMask pixColor pixMask dwExStyle hIcon d hints).1.icon_window ≠ 0 ∧
      (set_icon_hints fresh hbmColor hbmMask pixColor pixMask dwExStyle hIcon d hints).2.icon_window =
        (set_icon_hints fresh hbmColor hbmMask pixColor pixMask dwExStyle hIcon d hints).1.icon_window) ∧
    (dwExStyle &&& WS_EX_MANAGED ≠ 0 → hIcon ≠ 0 →
      (set_icon_hints fresh hbmColor hbmMask pixColor pixMask dwExStyle hIcon d hints).2.flag_IconWindowHint = false ∧
      (set_icon_hints fresh hbmColor hbmMask pixColor pixMask dwExStyle hIcon d hints).2.flag_IconPixmapHint = true ∧
      (set_icon_hints fresh hbmColor hbmMask pixColor pixMask dwExStyle hIcon d hints).2.flag_IconMaskHint = true ∧
      (set_icon_hints fresh hbmColor hbmMask pixColor pixMask dwExStyle hIcon d hints).1.icon_window = 0) := by
  refine ⟨?_, ?_, ?_⟩
  · intro hm
    simp [set_icon_hints, hm, destroy_icon_window]
    split_ifs <;> simp_all
  · intro hm hicon
    simp only [set_icon_hints, hm, hicon, if_neg hm, if_pos rfl, reduceIte]
    by_cases hiw : d.icon_window = 0
    · simp [hiw, create_icon_window, hfresh]
    · simp [hiw]
  · intro hm hicon
    simp [set_icon_hints, hm, hicon, destroy_icon_window]
    split_ifs <;> simp_all

/-- C5 witness: a managed window (WS_EX_MANAGED) that currently has a
surrogate (icon_window = 9) on which a class icon 3 is being set: the
surrogate is destroyed and exactly pixmap+mask is advertised. -/
theorem icon_hints_exactly_one_representation_witness :
    ((7 : Nat) ≠ 0 ∧ WS_EX_MANAGED &&& WS_EX_MANAGED ≠ 0 ∧ (3 : Nat) ≠ 0) ∧
    ((set_icon_hints 7 11 12 21 22 WS_EX_MANAGED 3 { icon_window := 9 } {}).2.flag_IconWindowHint = false ∧
      (set_icon_hints 7 11 12 21 22 WS_EX_MANAGED 3 { icon_window := 9 } {}).2.flag_IconPixmapHint = true ∧
      (set_icon_hints 7 11 12 21 22 WS_EX_MANAGED 3 { icon_window := 9 } {}).2.flag_IconMaskHint = true ∧
      (set_icon_hints 7 11 12 21 22 WS_EX_MANAGED 3 { icon_window := 9 } {}).1.icon_window = 0) :=
  ⟨⟨by decide, by decide, by decide⟩,
    (icon_hints_exactly_one_representation 7 11 12 21 22 WS_EX_MANAGED 3
        { icon_window := 9 } {} (by decide)).2.2 (by decide) (by decide)⟩

/-! ## Window-Manager Hints Builder: size constraints -/

/-- StaticGravity (X.h). -/
def StaticGravity : Nat := 10

/-- HAS_DLGFRAME: dialog-modal extended style, or a classic dialog frame
without a thick resizable frame. -/
def HAS_DLGFRAME (style exStyle : Nat) : Bool :=
  decide (exStyle &&& WS_EX_DLGMODALFRAME ≠ 0) ||
    (decide (style &&& WS_DLGFRAME ≠ 0) && decide (style &&& WS_THICKFRAME = 0))

/-- XSizeHints, with one Bool per flag bit of the flags word; XAllocSizeHints
zero-initializes every field. -/
structure XSizeHints where
  flag_PWinGravity : Bool := false
  flag_PPosition : Bool := false
  flag_PMinSize : Bool := false
  flag_PMaxSize : Bool := false
  win_gravity : Nat := 0
  x : Int := 0
  y : Int := 0
  min_width : Int := 0
  min_height : Int := 0
  max_width : Int := 0
  max_height : Int := 0
deriving Repr, DecidableEq

/-- set_size_hints: always advertise a static gravity anchor and the current
whole-rectangle position; when the window has a fixed dialog-style frame,
additionally lock minimum = maximum = current whole-rectangle size. -/
def set_size_hints (dwStyle dwExStyle : Nat) (whole_rect : RECT) : XSizeHints :=
  let h : XSizeHints :=
    { win_gravity := StaticGravity,
      x := whole_rect.left, y := whole_rect.top,
      flag_PWinGravity := true, flag_PPosition := true }
  if HAS_DLGFRAME dwStyle dwExStyle then
    { h with max_width := whole_rect.right - whole_rect.left,
             max_height := whole_rect.bottom - whole_rect.top,
             min_width := whole_rect.right - whole_rect.left,
             min_height := whole_rect.bottom - whole_rect.top,
             flag_PMinSize := true, flag_PMaxSize := true }
  else h

/-- C6. set_size_hints always advertises the static gravity anchor and the
current whole-rectangle position, and sets minimum = maximum = the current
whole-rectangle size exactly when the window has a fixed dialog-style frame
(WS_EX_DLGMODALFRAME, or WS_DLGFRAME without WS_THICKFRAME); end to end, a
top-level WS_DLGFRAME window created at (10,10,210,110) — whatever the
process managed mode and whatever decoration margins the external metrics
function would report — gets advertised size hints with min=max=(200,100). -/
theorem size_hints_static_gravity_and_dlgframe_lock :
    (∀ (dwStyle dwExStyle : Nat) (r : RECT),
      (set_size_hints dwStyle dwExStyle r).flag_PWinGravity = true ∧
      (set_size_hints dwStyle dwExStyle r).flag_PPosition = true ∧
      (set_size_hints dwStyle dwExStyle r).win_gravity = StaticGravity ∧
      (set_size_hints dwStyle dwExStyle r).x = r.left ∧
      (set_size_hints dwStyle dwExStyle r).y = r.top ∧
      (set_size_hints dwStyle dwExStyle r).flag_PMinSize = HAS_DLGFRAME dwStyle dwExStyle ∧
      (set_size_hints dwStyle dwExStyle r).flag_PMaxSize = HAS_DLGFRAME dwStyle dwExStyle ∧
      (set_size_hints dwStyle dwExStyle r).min_width =
        (if HAS_DLGFRAME dwStyle dwExStyle then r.right - r.left else 0) ∧
      (set_size_hints dwStyle dwExStyle r).min_height =
        (if HAS_DLGFRAME dwStyle dwExStyle then r.bottom - r.top else 0) ∧
      (set_size_hints dwStyle dwExStyle r).max_width =
        (if HAS_DLGFRAME dwStyle dwExStyle then r.right - r.left else 0) ∧
      (set_size_hints dwStyle dwExStyle r).max_height =
        (if HAS_DLGFRAME dwStyle dwExStyle then r.bottom - r.top else 0)) ∧
    (∀ (adj : RECT) (managed_mode : Bool),
      (set_size_hints WS_DLGFRAME (update_managed_exstyle managed_mode true WS_DLGFRAME 0)
          (X11DRV_window_to_X_rect adj (update_managed_exstyle managed_mode true WS_DLGFRAME 0)
            ⟨10, 10, 210, 110⟩)).min_width = 200 ∧
      (set_size_hints WS_DLGFRAME (update_managed_exstyle managed_mode true WS_DLGFRAME 0)
          (X11DRV_window_to_X_rect adj (update_managed_exstyle managed_mode true WS_DLGFRAME 0)
            ⟨10, 10, 210, 110⟩)).min_height = 100 ∧
      (set_size_hints WS_DLGFRAME (update_managed_exstyle managed_mode true WS_DLGFRAME 0)
          (X11DRV_window_to_X_rect adj (update_managed_exstyle managed_mode true WS_DLGFRAME 0)
            ⟨10, 10, 210, 110⟩)).max_width = 200 ∧
      (set_size_hints WS_DLGFRAME (update_managed_exstyle managed_mode true WS_DLGFRAME 0)
          (X11DRV_window_to_X_rect adj (update_managed_exstyle managed_mode true WS_DLGFRAME 0)
            ⟨10, 10, 210, 110⟩)).max_height = 100) := by
  constructor
  · intro dwStyle dwExStyle r
    unfold set_size_hints
    by_cases h : HAS_DLGFRAME dwStyle dwExStyle = true
    · simp [h]
    · simp only [Bool.not_eq_true] at h
      simp [h]
  · intro adj managed_mode
    have hmm : update_managed_exstyle managed_mode true WS_DLGFRAME 0 = 0 := by
      cases managed_mode <;> simp +decide [update_managed_exstyle, is_window_managed]
    rw [hmm]
    have hrect : X11DRV_window_to_X_rect adj 0 ⟨10, 10, 210, 110⟩ = ⟨10, 10, 210, 110⟩ := by
      simp +decide [X11DRV_window_to_X_rect]
    rw [hrect]
    refine ⟨?_, ?_, ?_, ?_⟩ <;> simp +decide [set_size_hints, HAS_DLGFRAME]

/-! ## Geometry Synchronizer: client-window sync -/

/-- is_client_window_mapped: the X client window should be mapped iff the
window is not minimized and its client rectangle is non-empty. -/
def is_client_window_mapped (dwStyle : Nat) (client_rect : RECT) : Bool :=
  decide (dwStyle &&& WS_MINIMIZE = 0) && !(IsRectEmpty client_rect)

/-- Observable native-side events of client-window sync, in program order. -/
inductive XOp where
  | xsync
  | unmapClient
  | configureClient
  | mapClient
deriving Repr, DecidableEq

/-- X11DRV_sync_client_window_position: offset the logical client rectangle
into whole-window-relative coordinates, diff against the last-synced client
rectangle; when something changed, flush graphics, unmap the client peer
first if it just stopped being mapped-eligible, reconfigure, and map it last
if it just became mapped-eligible. Returns the updated last-synced client
rectangle, the native calls issued in order, and the change mask. -/
def X11DRV_sync_client_window_position (dwStyle : Nat)
    (whole_rect old_client rectClient : RECT) : RECT × List XOp × Nat :=
  let client_rect := OffsetRect rectClient (-whole_rect.left) (-whole_rect.top)
  let mask := (get_window_changes {} old_client client_rect).1
  if mask = 0 then (old_client, [], 0)
  else
    let was_mapped := is_client_window_mapped dwStyle old_client
    let now_mapped := is_client_window_mapped dwStyle client_rect
    (client_rect,
     [XOp.xsync]
       ++ (if was_mapped && !now_mapped then [XOp.unmapClient] else [])
       ++ [XOp.configureClient]
       ++ (if !was_mapped && now_mapped then [XOp.mapClient] else []),
     mask)

theorem get_window_changes_mask_zero (c : XWindowChanges) (old rnew : RECT)
    (h : (get_window_changes c old rnew).1 = 0) :
    old.right - old.left = rnew.right - rnew.left ∧
      old.bottom - old.top = rnew.bottom - rnew.top := by
  revert h
  simp only [get_window_changes]
  split_ifs <;> simp_all +decide [CWWidth, CWHeight, CWX, CWY]

/-- C7. During client-window sync with the window not minimized: if the
last-synced client rectangle was non-empty and the new (whole-relative)
client rectangle is empty, the client peer is unmapped before the native
reconfigure call; if the last-synced rectangle was empty and the new one is
non-empty, the client peer is mapped after the reconfigure call. -/
theorem client_sync_map_unmap_ordering (dwStyle : Nat)
    (whole_rect old_client rectClient : RECT) :
    (dwStyle &&& WS_MINIMIZE = 0 →
      IsRectEmpty old_client = false →
      IsRectEmpty (OffsetRect rectClient (-whole_rect.left) (-whole_rect.top)) = true →
      (X11DRV_sync_client_window_position dwStyle whole_rect old_client rectClient).2.1 =
        [XOp.xsync, XOp.unmapClient, XOp.configureClient]) ∧
    (dwStyle &&& WS_MINIMIZE = 0 →
      IsRectEmpty old_client = true →
      IsRectEmpty (OffsetRect rectClient (-whole_rect.left) (-whole_rect.top)) = false →
      (X11DRV_sync_client_window_position dwStyle whole_rect old_client rectClient).2.1 =
        [XOp.xsync, XOp.configureClient, XOp.mapClient]) := by
  constructor
  · intro hmin hold hnew
    have hmask : ¬((get_window_changes {} old_client
        (OffsetRect rectClient (-whole_rect.left) (-whole_rect.top))).1 = 0) := by
      intro h0
      obtain ⟨hw, hh⟩ := get_window_changes_mask_zero _ _ _ h0
      simp only [IsRectEmpty, OffsetRect, Bool.or_eq_false_iff, Bool.or_eq_true_iff,
        decide_eq_false_iff_not, decide_eq_true_eq, not_le, ge_iff_le] at hold hnew
      simp only [OffsetRect] at hw hh
      omega
    simp [X11DRV_sync_client_window_position, is_client_window_mapped, hmin, hold, hnew, hmask]
  · intro hmin hold hnew
    have hmask : ¬((get_window_changes {} old_client
        (OffsetRect rectClient (-whole_rect.left) (-whole_rect.top))).1 = 0) := by
      intro h0
      obtain ⟨hw, hh⟩ := get_window_changes_mask_zero _ _ _ h0
      simp only [IsRectEmpty, OffsetRect, Bool.or_eq_false_iff, Bool.or_eq_true_iff,
        decide_eq_false_iff_not, decide_eq_true_eq, not_le, ge_iff_le] at hold hnew
      simp only [OffsetRect] at hw hh
      omega
    simp [X11DRV_sync_client_window_position, is_client_window_mapped, hmin, hold, hnew, hmask]

/-- C7 witness: with the whole window at the origin, the transition
(0,0,100,100) → (0,0,100,0) unmaps before reconfiguring, and the reverse
transition maps after reconfiguring. -/
theorem client_sync_map_unmap_ordering_witness :
    ((0 : Nat) &&& WS_MINIMIZE = 0 ∧
      IsRectEmpty ⟨0, 0, 100, 100⟩ = false ∧
      IsRectEmpty (OffsetRect ⟨0, 0, 100, 0⟩ (-(0 : Int)) (-(0 : Int))) = true) ∧
    (X11DRV_sync_client_window_position 0 ⟨0, 0, 0, 0⟩ ⟨0, 0, 100, 100⟩ ⟨0, 0, 100, 0⟩).2.1 =
      [XOp.xsync, XOp.unmapClient, XOp.configureClient] ∧
    (X11DRV_sync_client_window_position 0 ⟨0, 0, 0, 0⟩ ⟨0, 0, 100, 0⟩ ⟨0, 0, 100, 100⟩).2.1 =
      [XOp.xsync, XOp.configureClient, XOp.mapClient] :=
  ⟨⟨by decide, by decide, by decide⟩,
    (client_sync_map_unmap_ordering 0 ⟨0, 0, 0, 0⟩ ⟨0, 0, 100, 100⟩ ⟨0, 0, 100, 0⟩).1
      (by decide) (by decide) (by decide),
    (client_sync_map_unmap_ordering 0 ⟨0, 0, 0, 0⟩ ⟨0, 0, 100, 0⟩ ⟨0, 0, 100, 100⟩).2
      (by decide) (by decide) (by decide)⟩

/-! ## Teardown Orchestrator -/

/-- X11DRV_DestroyWindow, as the ordered list of native-side events it
performs on the peer state: when a whole peer exists, flush, remove both
registry entries, destroy the whole peer (which destroys the client child
too), then destroy the icon surrogate; afterwards free the owned icon
bitmap and mask if present, and free the driver data last. -/
def X11DRV_DestroyWindow (d : WinData) : List DOp :=
  (if d.whole_window ≠ 0 then
     [DOp.syncFlush, DOp.deleteCtxWhole, DOp.deleteCtxClient, DOp.destroyWhole]
       ++ (destroy_icon_window d).2
   else [])
  ++ (if d.hWMIconBitmap ≠ 0 then [DOp.freeIconBitmap] else [])
  ++ (if d.hWMIconMask ≠ 0 then [DOp.freeIconMask] else [])
  ++ [DOp.freeData]

/-- Index of the first occurrence of an event in a trace (length of the
trace when absent). -/
def firstIdx (a : DOp) : List DOp → Nat
  | [] => 0
  | b :: tr => if a = b then 0 else firstIdx a tr + 1

/-- C8. As stated: during teardown of a window with a materialized peer the
icon surrogate would be destroyed and the owned icon pixmap and mask freed
before the whole peer window is destroyed. False: for a peer state with a
whole peer (1), a surrogate (3) and owned bitmaps (4, 5), the teardown trace
destroys the whole peer first — destroyWhole occurs strictly before
destroyIcon, freeIconBitmap and freeIconMask. -/
theorem whole_destroyed_before_icon_surrogate :
    X11DRV_DestroyWindow ⟨1, 2, 3, 4, 5⟩ =
      [DOp.syncFlush, DOp.deleteCtxWhole, DOp.deleteCtxClient, DOp.destroyWhole,
        DOp.deleteCtxIcon, DOp.destroyIcon, DOp.removePropIcon,
        DOp.freeIconBitmap, DOp.freeIconMask, DOp.freeData] ∧
    (¬(firstIdx DOp.destroyIcon (X11DRV_DestroyWindow ⟨1, 2, 3, 4, 5⟩) <
        firstIdx DOp.destroyWhole (X11DRV_DestroyWindow ⟨1, 2, 3, 4, 5⟩)) ∧
      ¬(firstIdx DOp.freeIconBitmap (X11DRV_DestroyWindow ⟨1, 2, 3, 4, 5⟩) <
        firstIdx DOp.destroyWhole (X11DRV_DestroyWindow ⟨1, 2, 3, 4, 5⟩)) ∧
      ¬(firstIdx DOp.freeIconMask (X11DRV_DestroyWindow ⟨1, 2, 3, 4, 5⟩) <
        firstIdx DOp.destroyWhole (X11DRV_DestroyWindow ⟨1, 2, 3, 4, 5⟩))) := by
  refine ⟨by decide, by decide, by decide, by decide⟩

/-- C8 (amended). During teardown for a window with a materialized whole peer
and an icon surrogate: both registry entries are removed before the whole
peer is destroyed; the whole peer is destroyed first (destroying the client
peer as a side effect of native containment) and only then is the icon
surrogate destroyed; the owned icon pixmap and mask, when present, are freed
after the surrogate is destroyed; and the PeerWindowState is freed last. -/
theorem destroy_window_event_order (d : WinData)
    (hwhole : d.whole_window ≠ 0) (hicon : d.icon_window ≠ 0) :
    (firstIdx DOp.deleteCtxWhole (X11DRV_DestroyWindow d) <
        firstIdx DOp.destroyWhole (X11DRV_DestroyWindow d) ∧
      firstIdx DOp.deleteCtxClient (X11DRV_DestroyWindow d) <
        firstIdx DOp.destroyWhole (X11DRV_DestroyWindow d)) ∧
    firstIdx DOp.destroyWhole (X11DRV_DestroyWindow d) <
      firstIdx DOp.destroyIcon (X11DRV_DestroyWindow d) ∧
    (d.hWMIconBitmap ≠ 0 →
      DOp.freeIconBitmap ∈ X11DRV_DestroyWindow d ∧
        firstIdx DOp.destroyIcon (X11DRV_DestroyWindow d) <
          firstIdx DOp.freeIconBitmap (X11DRV_DestroyWindow d)) ∧
    (d.hWMIconMask ≠ 0 →
      DOp.freeIconMask ∈ X11DRV_DestroyWindow d ∧
        firstIdx DOp.destroyIcon (X11DRV_DestroyWindow d) <
          firstIdx DOp.freeIconMask (X11DRV_DestroyWindow d)) ∧
    (X11DRV_DestroyWindow d).getLast? = some DOp.freeData := by
  by_cases hb : d.hWMIconBitmap = 0 <;> by_cases hm : d.hWMIconMask = 0 <;>
    simp_all +decide [X11DRV_DestroyWindow, destroy_icon_window, firstIdx]

/-- C8 (amended) witness: the concrete peer state with whole peer 1, client
peer 2, surrogate 3, owned bitmaps 4 and 5. -/
theorem destroy_window_event_order_witness :
    ((1 : Nat) ≠ 0 ∧ (3 : Nat) ≠ 0) ∧
    ((firstIdx DOp.deleteCtxWhole (X11DRV_DestroyWindow ⟨1, 2, 3, 4, 5⟩) <
        firstIdx DOp.destroyWhole (X11DRV_DestroyWindow ⟨1, 2, 3, 4, 5⟩) ∧
      firstIdx DOp.deleteCtxClient (X11DRV_DestroyWindow ⟨1, 2, 3, 4, 5⟩) <
        firstIdx DOp.destroyWhole (X11DRV_DestroyWindow ⟨1, 2, 3, 4, 5⟩)) ∧
    firstIdx DOp.destroyWhole (X11DRV_DestroyWindow ⟨1, 2, 3, 4, 5⟩) <
      firstIdx DOp.destroyIcon (X11DRV_DestroyWindow ⟨1, 2, 3, 4, 5⟩) ∧
    ((4 : Nat) ≠ 0 →
      DOp.freeIconBitmap ∈ X11DRV_DestroyWindow ⟨1, 2, 3, 4, 5⟩ ∧
        firstIdx DOp.destroyIcon (X11DRV_DestroyWindow ⟨1, 2, 3, 4, 5⟩) <
          firstIdx DOp.freeIconBitmap (X11DRV_DestroyWindow ⟨1, 2, 3, 4, 5⟩)) ∧
    ((5 : Nat) ≠ 0 →
      DOp.freeIconMask ∈ X11DRV_DestroyWindow ⟨1, 2, 3, 4, 5⟩ ∧
        firstIdx DOp.destroyIcon (X11DRV_DestroyWindow ⟨1, 2, 3, 4, 5⟩) <
          firstIdx DOp.freeIconMask (X11DRV_DestroyWindow ⟨1, 2, 3, 4, 5⟩)) ∧
    (X11DRV_DestroyWindow ⟨1, 2, 3, 4, 5⟩).getLast? = some DOp.freeData) :=
  ⟨⟨by decide, by decide⟩,
    destroy_window_event_order ⟨1, 2, 3, 4, 5⟩ (by decide) (by decide)⟩

/-! ## Materialization Orchestrator -/

/-- The creation parameters this core reads and writes (CREATESTRUCT). -/
structure CREATESTRUCT where
  x : Int
  y : Int
  cx : Int
  cy : Int
  style : Nat
deriving Repr, DecidableEq

/-- Outcome of X11DRV_CreateWindow: the boolean result, the (possibly
clamped) creation parameters, the window rectangle pushed to the logical
layer before any peer is created, and — when the failed path ran — the
teardown trace of the X11DRV_DestroyWindow call it makes. -/
structure CreateOutcome where
  ret : Bool
  cs : CREATESTRUCT
  createRect : Option RECT := none
  teardown : Option (List DOp) := none
deriving Repr, DecidableEq

/-- X11DRV_CreateWindow: clamp oversized dimensions to 65535, allocate the
driver data, push the initial rectangle, and branch: the desktop (no parent)
short-circuits to success; failure to create the whole or client peer (or a
CBT-hook veto) jumps to the failed label, which calls X11DRV_DestroyWindow
on the data accumulated so far and returns FALSE; a WM_NCCREATE abort
returns FALSE without teardown; otherwise the result is that of the
remaining creation steps. Native success/failure of each external step is
passed in as a boolean. -/
def X11DRV_CreateWindow
    (allocOk hasParent wholeOk clientOk cbtPasses ncCreateOk restOk : Bool)
    (cs : CREATESTRUCT) : CreateOutcome :=
  let cs := if cs.cx > 65535 then { cs with cx := 65535 } else cs
  let cs := if cs.cy > 65535 then { cs with cy := 65535 } else cs
  if !allocOk then { ret := false, cs := cs }
  else
    let data : WinData := {}
    let rect : RECT := ⟨cs.x, cs.y, cs.x + cs.cx, cs.y + cs.cy⟩
    if !hasParent then { ret := true, cs := cs, createRect := some rect }
    else if !wholeOk then
      { ret := false, cs := cs, createRect := some rect,
        teardown := some (X11DRV_DestroyWindow data) }
    else
      let data := { data with whole_window := 1 }
      if !clientOk then
        { ret := false, cs := cs, createRect := some rect,
          teardown := some (X11DRV_DestroyWindow data) }
      else
        let data := { data with client_window := 1 }
        if !cbtPasses then
          { ret := false, cs := cs, createRect := some rect,
            teardown := some (X11DRV_DestroyWindow data) }
        else if !ncCreateOk then
          { ret := false, cs := cs, createRect := some rect }
        else
          { ret := restOk, cs := cs, createRect := some rect }

/-- C9. If creating either the whole peer or the client peer fails during
materialization, X11DRV_CreateWindow aborts with a failure result and tears
down the peer state allocated so far through the standard teardown path
(X11DRV_DestroyWindow). -/
theorem create_failure_runs_standard_teardown
    (wholeOk clientOk cbtPasses ncCreateOk restOk : Bool) (cs : CREATESTRUCT)
    (h : wholeOk = false ∨ clientOk = false) :
    (X11DRV_CreateWindow true true wholeOk clientOk cbtPasses ncCreateOk restOk cs).ret
        = false ∧
    ∃ d : WinData,
      (X11DRV_CreateWindow true true wholeOk clientOk cbtPasses ncCreateOk restOk cs).teardown
        = some (X11DRV_DestroyWindow d) := by
  rcases h with h | h
  · subst h
    exact ⟨rfl, ⟨{}, rfl⟩⟩
  · subst h
    cases wholeOk
    · exact ⟨rfl, ⟨{}, rfl⟩⟩
    · exact ⟨rfl, ⟨{ whole_window := 1 }, rfl⟩⟩

/-- C9 witness: client-peer creation fails (whole peer succeeded): the
result is failure and the teardown trace is X11DRV_DestroyWindow on the
state holding the whole peer. -/
theorem create_failure_runs_standard_teardown_witness :
    (false = false ∨ false = false) ∧
    ((X11DRV_CreateWindow true true true false true true true ⟨0, 0, 100, 100, 0⟩).ret
        = false ∧
      ∃ d : WinData,
        (X11DRV_CreateWindow true true true false true true true ⟨0, 0, 100, 100, 0⟩).teardown
          = some (X11DRV_DestroyWindow d)) :=
  ⟨Or.inl rfl,
    create_failure_runs_standard_teardown true false true true true
      ⟨0, 0, 100, 100, 0⟩ (Or.inr rfl)⟩

/-- C10. X11DRV_CreateWindow clamps a requested width or height exceeding
65535 down to exactly 65535 (leaving dimensions at or below 65535 — and the
other creation parameters — unchanged) before any peer is created: the
rectangle pushed to the logical layer ahead of peer creation already uses
the clamped dimensions, and with every external step succeeding the
creation still proceeds to success rather than failing. -/
theorem create_clamps_oversized_dimensions
    (allocOk hasParent wholeOk clientOk cbtPasses ncCreateOk restOk : Bool)
    (cs : CREATESTRUCT) :
    ((X11DRV_CreateWindow allocOk hasParent wholeOk clientOk cbtPasses ncCreateOk restOk
        cs).cs.cx = (if cs.cx > 65535 then 65535 else cs.cx) ∧
      (X11DRV_CreateWindow allocOk hasParent wholeOk clientOk cbtPasses ncCreateOk restOk
        cs).cs.cy = (if cs.cy > 65535 then 65535 else cs.cy) ∧
      (X11DRV_CreateWindow allocOk hasParent wholeOk clientOk cbtPasses ncCreateOk restOk
        cs).cs.x = cs.x ∧
      (X11DRV_CreateWindow allocOk hasParent wholeOk clientOk cbtPasses ncCreateOk restOk
        cs).cs.y = cs.y ∧
      (X11DRV_CreateWindow allocOk hasParent wholeOk clientOk cbtPasses ncCreateOk restOk
        cs).cs.style = cs.style) ∧
    ((X11DRV_CreateWindow true true true true true true true cs).ret = true ∧
      (X11DRV_CreateWindow true true true true true true true cs).createRect =
        some ⟨cs.x, cs.y, cs.x + (if cs.cx > 65535 then 65535 else cs.cx),
              cs.y + (if cs.cy > 65535 then 65535 else cs.cy)⟩) := by
  have hcs : ∀ (a h w c b n r : Bool),
      (X11DRV_CreateWindow a h w c b n r cs).cs =
        (if (if cs.cx > 65535 then { cs with cx := 65535 } else cs).cy > 65535 then
          { (if cs.cx > 65535 then { cs with cx := 65535 } else cs) with cy := 65535 }
        else (if cs.cx > 65535 then { cs with cx := 65535 } else cs)) := by
    intro a h w c b n r
    cases a <;> cases h <;> cases w <;> cases c <;> cases b <;> cases n <;> cases r <;> rfl
  have hrect :
      (X11DRV_CreateWindow true true true true true true true cs).createRect =
        some ⟨(X11DRV_CreateWindow true true true true true true true cs).cs.x,
              (X11DRV_CreateWindow true true true true true true true cs).cs.y,
              (X11DRV_CreateWindow true true true true true true true cs).cs.x +
                (X11DRV_CreateWindow true true true true true true true cs).cs.cx,
              (X11DRV_CreateWindow true true true true true true true cs).cs.y +
                (X11DRV_CreateWindow true true true true true true true cs).cs.cy⟩ := rfl
  refine ⟨⟨?_, ?_, ?_, ?_, ?_⟩, rfl, ?_⟩
  · rw [hcs]; split_ifs <;> simp
  · rw [hcs]; split_ifs <;> simp
  · rw [hcs]; split_ifs <;> simp
  · rw [hcs]; split_ifs <;> simp
  · rw [hcs]; split_ifs <;> simp
  · rw [hrect, hcs]; split_ifs <;> simp

end X11drv
